import Mathlib

/-!
Verification of the BusinessGPT beta chat backend (Go, `main.go`).

The development shallowly embeds the quota-guarded chat workflow:
`apiChatHandler` (request handling after authentication and JSON decoding),
`checkUsageLimit`, `recordUsage`, `saveChatHistory`, `callLLMAPI` and
`callOpenAI`, together with the relational rows they touch
(`user_usage`, `chat_sessions`, `chat_messages`).

Go strings are byte strings; where byte-level behaviour matters (the
session-title truncation `title[:47]`) messages are encoded to UTF-8
byte lists.  Database reads are modelled as `Except DbError`, mirroring
`sql.QueryRow(...).Scan` which returns `sql.ErrNoRows` for a missing row
and other errors for datastore failures.  The upstream OpenAI call is
modelled against an oracle environment describing the API key and the
HTTP outcome.  Concurrent requests are modelled as threads whose database
round trips (the quota read and the usage upsert) interleave atomically.
-/

namespace BusinessGPT

/-- Daily chat limit hard-coded in `checkUsageLimit` (`chatCount < 50`). -/
def dailyLimit : Nat := 50

/-- Row of the `user_usage` table: `UNIQUE(user_id, date)`, counters. -/
structure UsageRow where
  userId : Nat
  date : Nat
  chatCount : Nat
  tokenCount : Nat
deriving DecidableEq, Repr

/-- Row of the `chat_sessions` table (title stored as raw bytes, as Go does). -/
structure SessionRow where
  id : Nat
  userId : Nat
  title : List Nat
  model : String
deriving DecidableEq, Repr

/-- Row of the `chat_messages` table; `tokensUsed` is NULL on user messages. -/
structure MessageRow where
  sessionId : Nat
  role : String
  content : String
  model : String
  tokensUsed : Option Nat
deriving DecidableEq, Repr

/-- The relational state touched by one chat turn. -/
structure DB where
  usage : List UsageRow
  sessions : List SessionRow
  messages : List MessageRow
deriving DecidableEq, Repr

/-- Errors surfaced by a `QueryRow(...).Scan` round trip: `sql.ErrNoRows`
for an absent row, or any other datastore failure. -/
inductive DbError where
  | noRows
  | failure (msg : String)
deriving DecidableEq, Repr

/-- Predicate selecting the `user_usage` row of `(user_id, date)`. -/
def usageKeyIs (uid date : Nat) (r : UsageRow) : Bool :=
  r.userId == uid && r.date == date

/-- The `SELECT ... FROM user_usage WHERE user_id = $1 AND date = CURRENT_DATE` row. -/
def lookupUsage (db : DB) (uid date : Nat) : Option UsageRow :=
  db.usage.find? (usageKeyIs uid date)

/-- Outcome of the chat-count read in `checkUsageLimit`: an injected datastore
fault if any, else `sql.ErrNoRows` when the row is absent, else the count. -/
def queryChatCount (db : DB) (uid date : Nat) (fault : Option String) :
    Except DbError Nat :=
  match fault with
  | some m => .error (.failure m)
  | none =>
    match lookupUsage db uid date with
    | none => .error .noRows
    | some r => .ok r.chatCount

/-- Embeds `checkUsageLimit`: any read error (`err != nil`, including a
missing row) yields `true`; otherwise the check is `chatCount < 50`. -/
def checkUsageLimit (r : Except DbError Nat) : Bool :=
  match r with
  | .error _ => true
  | .ok chatCount => chatCount < dailyLimit

/-- The `DO UPDATE` arm of the usage upsert on the conflicting row:
`chat_count = chat_count + 1, token_count = token_count + tokens`. -/
def bumpRow (uid date tokens : Nat) (r : UsageRow) : UsageRow :=
  if usageKeyIs uid date r then
    ⟨r.userId, r.date, r.chatCount + 1, r.tokenCount + tokens⟩
  else r

/-- Embeds `recordUsage`: the single
`INSERT ... ON CONFLICT (user_id, date) DO UPDATE` statement — insert
`(1, tokens)` when no `(user_id, date)` row exists, else increment
`chat_count` by 1 and `token_count` by `tokens`.  One atomic step. -/
def recordUsage (db : DB) (uid date tokens : Nat) : DB :=
  match lookupUsage db uid date with
  | none => { db with usage := db.usage ++ [⟨uid, date, 1, tokens⟩] }
  | some _ => { db with usage := db.usage.map (bumpRow uid date tokens) }

/-- UTF-8 encoding of one character (Go strings are UTF-8 byte strings). -/
def charUtf8 (c : Char) : List Nat :=
  let n := c.toNat
  if n < 128 then [n]
  else if n < 2048 then [192 + n / 64, 128 + n % 64]
  else if n < 65536 then [224 + n / 4096, 128 + (n / 64) % 64, 128 + n % 64]
  else [240 + n / 262144, 128 + (n / 4096) % 64, 128 + (n / 64) % 64, 128 + n % 64]

/-- UTF-8 byte encoding of a string, as Go's `len`/slicing sees it. -/
def utf8Encode (s : String) : List Nat :=
  s.data.foldr (fun c acc => charUtf8 c ++ acc) []

/-- Embeds the title computation in `saveChatHistory`:
`if len(title) > 50 { title = title[:47] + "..." }` — byte length and byte
slicing; `46` is the byte of `.`. -/
def truncateTitle (msg : List Nat) : List Nat :=
  if msg.length > 50 then msg.take 47 ++ [46, 46, 46] else msg

/-- Session title stored for a user message given as a string. -/
def titleOf (s : String) : List Nat :=
  truncateTitle (utf8Encode s)

/-- The JSON body `callOpenAI` posts upstream (`OpenAIRequest` struct). -/
structure OpenAIRequest where
  model : String
  messages : List (String × String)
  temperature : ℚ
  maxTokens : Nat
deriving DecidableEq, Repr

/-- Request body built by `callOpenAI` for a user message. -/
def openAIRequest (message : String) : OpenAIRequest :=
  { model := "gpt-4o"
    messages := [("user", message)]
    temperature := 7 / 10
    maxTokens := 2000 }

/-- Shape of the upstream response body once read: either JSON that fails to
unmarshal into `OpenAIResponse`, or a well-formed body carrying the choice
contents and `usage.total_tokens`. -/
inductive BodyShape where
  | malformed
  | wellFormed (choices : List String) (totalTokens : Nat)
deriving DecidableEq, Repr

/-- An upstream HTTP response: status code and body. -/
structure HttpResp where
  status : Nat
  body : BodyShape
deriving DecidableEq, Repr

/-- Oracle for the upstream world seen by `callOpenAI`: the
`OPENAI_API_KEY` environment value and the outcome of `client.Do`
(a network/transport error, or a response). -/
structure ProviderEnv where
  apiKey : String
  http : OpenAIRequest → Except String HttpResp

/-- Error taxonomy of `callOpenAI` (all returned as a non-nil `error`). -/
inductive ProviderError where
  | missingKey
  | network (e : String)
  | badStatus (status : Nat)
  | malformedResponse
  | emptyChoices
deriving DecidableEq, Repr

/-- Embeds `callOpenAI`: missing key, transport error, non-200 status,
unmarshal failure and empty `choices` each fail; otherwise the first
choice's content and the total token usage are returned. -/
def callOpenAI (env : ProviderEnv) (message : String) :
    Except ProviderError (String × Nat) :=
  if env.apiKey = "" then .error .missingKey
  else
    match env.http (openAIRequest message) with
    | .error e => .error (.network e)
    | .ok resp =>
      if resp.status ≠ 200 then .error (.badStatus resp.status)
      else
        match resp.body with
        | .malformed => .error .malformedResponse
        | .wellFormed choices totalTokens =>
          match choices with
          | [] => .error .emptyChoices
          | c :: _ => .ok (c, totalTokens)

/-- Fixed prefix of the canned Claude reply in `callLLMAPI`. -/
def claudeStubPre : String :=
  "Claude APIは開発中です。現在はテスト応答を返しています:\n\nあなたの質問「"

/-- Fixed suffix of the canned Claude reply in `callLLMAPI`. -/
def claudeStubPost : String :=
  "」について、Claude 3からの応答をシミュレートしています。"

/-- Fixed prefix of the canned Gemini reply in `callLLMAPI`. -/
def geminiStubPre : String :=
  "Gemini APIは開発中です。現在はテスト応答を返しています:\n\nあなたの質問「"

/-- Fixed suffix of the canned Gemini reply in `callLLMAPI`. -/
def geminiStubPost : String :=
  "」について、Gemini 1.5からの応答をシミュレートしています。"

/-- Embeds `callLLMAPI`: dispatch on the model name; `claude-3` and `gemini`
return canned replies of token cost 100 without touching the environment;
`gpt-4o` and every other value call `callOpenAI`. -/
def callLLMAPI (env : ProviderEnv) (message model : String) :
    Except ProviderError (String × Nat) :=
  if model = "gpt-4o" then callOpenAI env message
  else if model = "claude-3" then
    .ok (claudeStubPre ++ message ++ claudeStubPost, 100)
  else if model = "gemini" then
    .ok (geminiStubPre ++ message ++ geminiStubPost, 100)
  else callOpenAI env message

/-- The decoded `/api/chat` request body (`APIRequest` struct). -/
structure APIRequest where
  message : String
  model : String
deriving DecidableEq, Repr

/-- The success payload written by `apiChatHandler` (`APIResponse` struct). -/
structure APIResponse where
  response : String
  model : String
  tokens : Nat
deriving DecidableEq, Repr

/-- Observable outcome of one `/api/chat` turn (after the authentication and
JSON-decoding gates): quota rejection, provider failure, or success. -/
inductive TurnResult where
  | quotaExceeded (message : String)
  | providerError (e : ProviderError)
  | ok (resp : APIResponse)
deriving DecidableEq, Repr

/-- HTTP status written for each outcome (`WriteHeader` calls / default 200). -/
def statusOf : TurnResult → Nat
  | .quotaExceeded _ => 429
  | .providerError _ => 500
  | .ok _ => 200

/-- The quota error message written with status 429. -/
def quotaMessage : String := "使用制限に達しました。本日の制限: 50回"

/-- Fault injection for the persistence statements: whether the usage upsert
and each of the three inserts of `saveChatHistory` fail. -/
structure StoreFaults where
  recordFails : Bool
  sessionInsertFails : Bool
  userMsgInsertFails : Bool
  assistantMsgInsertFails : Bool
deriving DecidableEq, Repr

/-- All persistence statements succeed. -/
def noFaults : StoreFaults := ⟨false, false, false, false⟩

/-- Every persistence statement fails. -/
def allFaults : StoreFaults := ⟨true, true, true, true⟩

/-- Embeds `saveChatHistory`: insert a `chat_sessions` row (title truncated
to 50 bytes) returning its id, then the user message row, then the assistant
row carrying the token count.  A failing statement returns its error at that
point, keeping whatever was already inserted. -/
def saveChatHistory (f : StoreFaults) (db : DB) (uid : Nat)
    (userMessage aiResponse modelName : String) (tokens : Nat) :
    Except Unit Unit × DB :=
  if f.sessionInsertFails then (.error (), db)
  else
    let sid := db.sessions.length + 1
    let db1 := { db with
      sessions := db.sessions ++ [⟨sid, uid, titleOf userMessage, modelName⟩] }
    if f.userMsgInsertFails then (.error (), db1)
    else
      let db2 := { db1 with
        messages := db1.messages ++ [⟨sid, "user", userMessage, modelName, none⟩] }
      if f.assistantMsgInsertFails then (.error (), db2)
      else
        (.ok (),
         { db2 with
           messages := db2.messages ++
             [⟨sid, "assistant", aiResponse, modelName, some tokens⟩] })

/-- Embeds the core of `apiChatHandler` (after the session and JSON gates):
quota check, provider dispatch, usage upsert, history persistence.  Errors
of `recordUsage` and `saveChatHistory` are logged and swallowed; the success
payload is written regardless. -/
def apiChatHandler (env : ProviderEnv) (f : StoreFaults) (db : DB)
    (uid date : Nat) (req : APIRequest) (checkFault : Option String) :
    TurnResult × DB :=
  if checkUsageLimit (queryChatCount db uid date checkFault) then
    match callLLMAPI env req.message req.model with
    | .error e => (.providerError e, db)
    | .ok (response, tokens) =>
      let db1 := if f.recordFails then db else recordUsage db uid date tokens
      let db2 := (saveChatHistory f db1 uid req.message response req.model tokens).2
      (.ok ⟨response, req.model, tokens⟩, db2)
  else (.quotaExceeded quotaMessage, db)

/-- Progress of one in-flight `/api/chat` request between its database round
trips: about to run the quota read, about to run the usage upsert (the
provider call in between touches no shared state), rejected, or finished. -/
inductive Phase where
  | toCheck
  | toRecord
  | rejected
  | finished
deriving DecidableEq, Repr

/-- One in-flight chat turn: the token cost its provider call will report,
and how far it has progressed. -/
structure Turn where
  tokens : Nat
  phase : Phase
deriving DecidableEq, Repr

/-- Shared database plus the in-flight turns of one user. -/
structure ConcState where
  db : DB
  turns : List Turn
deriving DecidableEq, Repr

/-- One atomic database round trip of turn `i`: its quota read
(`checkUsageLimit`), or its usage upsert (`recordUsage`).  Each statement
executes atomically at the datastore; the interleaving of statements from
concurrent requests is chosen by the schedule. -/
def turnStep (uid date : Nat) (s : ConcState) (i : Nat) : ConcState :=
  match s.turns.get? i with
  | none => s
  | some t =>
    match t.phase with
    | .toCheck =>
      if checkUsageLimit (queryChatCount s.db uid date none) then
        { s with turns := s.turns.set i { t with phase := .toRecord } }
      else
        { s with turns := s.turns.set i { t with phase := .rejected } }
    | .toRecord =>
      { db := recordUsage s.db uid date t.tokens
        turns := s.turns.set i { t with phase := .finished } }
    | _ => s

/-- Run the round trips of concurrent turns in schedule order. -/
def runSched (uid date : Nat) (s : ConcState) (sched : List Nat) : ConcState :=
  sched.foldl (turnStep uid date) s

/-- Database of the race scenario: user 1 already at 49 chats today. -/
def raceDB : DB := ⟨[⟨1, 0, 49, 0⟩], [], []⟩

/-- Race scenario: two concurrent turns of user 1 (each of token cost 10)
starting just before their quota reads, at a count of 49. -/
def raceInit : ConcState := ⟨raceDB, [⟨10, .toCheck⟩, ⟨10, .toCheck⟩]⟩

section Theorems

/-- Key predicate is stable under the upsert's update arm. -/
lemma usageKeyIs_bumpRow (uid date tokens : Nat) (r : UsageRow) :
    usageKeyIs uid date (bumpRow uid date tokens r) = usageKeyIs uid date r := by
  unfold bumpRow
  split <;> rfl

/-- Looking up the key after the update arm finds the bumped row. -/
lemma find_bump (uid date tokens : Nat) (l : List UsageRow) :
    (l.map (bumpRow uid date tokens)).find? (usageKeyIs uid date) =
      (l.find? (usageKeyIs uid date)).map (bumpRow uid date tokens) := by
  rw [List.find?_map]
  have h : (usageKeyIs uid date ∘ bumpRow uid date tokens) = usageKeyIs uid date := by
    funext r
    exact usageKeyIs_bumpRow uid date tokens r
  rw [h]

/-- The usage upsert leaves the `chat_sessions` table untouched. -/
lemma recordUsage_sessions (db : DB) (uid date tokens : Nat) :
    (recordUsage db uid date tokens).sessions = db.sessions := by
  unfold recordUsage
  cases lookupUsage db uid date <;> rfl

/-- The usage upsert leaves the `chat_messages` table untouched. -/
lemma recordUsage_messages (db : DB) (uid date tokens : Nat) :
    (recordUsage db uid date tokens).messages = db.messages := by
  unfold recordUsage
  cases lookupUsage db uid date <;> rfl

/-- C5: the usage-recording operation for (user, today) is a single atomic
insert-or-update — one datastore statement (one step of the model), which
inserts a row with chat count 1 and the turn's token cost when no row
exists, and otherwise increments the chat count by 1 and the token count by
the token cost; the other tables are untouched. -/
theorem recordUsage_atomic_upsert (db : DB) (uid date tokens : Nat) :
    (recordUsage db uid date tokens).sessions = db.sessions ∧
    (recordUsage db uid date tokens).messages = db.messages ∧
    lookupUsage (recordUsage db uid date tokens) uid date =
      some (match lookupUsage db uid date with
            | none => ⟨uid, date, 1, tokens⟩
            | some r => ⟨r.userId, r.date, r.chatCount + 1, r.tokenCount + tokens⟩) := by
  refine ⟨recordUsage_sessions db uid date tokens,
          recordUsage_messages db uid date tokens, ?_⟩
  cases h : lookupUsage db uid date with
  | none =>
    have hf : db.usage.find? (usageKeyIs uid date) = none := h
    simp only [recordUsage, h, lookupUsage, List.find?_append, hf, Option.none_or]
    rw [List.find?_cons_of_pos]
    simp [usageKeyIs]
  | some r =>
    have hkey : usageKeyIs uid date r = true := List.find?_some h
    have hf : db.usage.find? (usageKeyIs uid date) = some r := h
    simp only [recordUsage, lookupUsage, hf, find_bump]
    simp [hf, bumpRow, hkey]

/-- C10: the quota check fails open — any error from the chat-count read
(a missing row as well as any other datastore failure) makes
`checkUsageLimit` report the turn as allowed, so the daily limit is only
enforced when the read succeeds (in which case it is `count < 50`). -/
theorem checkUsageLimit_fails_open :
    (∀ e : DbError, checkUsageLimit (.error e) = true) ∧
    (∀ db : DB, ∀ uid date : Nat, ∀ m : String,
      checkUsageLimit (queryChatCount db uid date (some m)) = true) ∧
    (∀ uid date : Nat, checkUsageLimit (queryChatCount ⟨[], [], []⟩ uid date none) = true) ∧
    (∀ c : Nat, checkUsageLimit (.ok c) = decide (c < dailyLimit)) :=
  ⟨fun _ => rfl, fun _ _ _ _ => rfl, fun _ _ => rfl, fun _ => rfl⟩

/-- C1 (refuted by the code): the quota read and the usage upsert are two
separate datastore round trips, so two concurrent turns of a user at count
49 can both pass the check and leave the recorded count at 51 — the
interleaving check-check-record-record exceeds the daily limit of 50,
while the serialized schedule stops at 50. -/
theorem quota_race_exceeds_daily_limit :
    (lookupUsage (runSched 1 0 raceInit [0, 1, 0, 1]).db 1 0).map UsageRow.chatCount
       = some 51 ∧
    (lookupUsage (runSched 1 0 raceInit [0, 0, 1, 1]).db 1 0).map UsageRow.chatCount
       = some 50 ∧
    ¬ (∀ sched : List Nat, ∀ r : UsageRow,
        lookupUsage (runSched 1 0 raceInit sched).db 1 0 = some r →
        r.chatCount ≤ dailyLimit) := by
  refine ⟨by decide, by decide, fun h => ?_⟩
  have h51 : lookupUsage (runSched 1 0 raceInit [0, 1, 0, 1]).db 1 0
      = some ⟨1, 0, 51, 20⟩ := by decide
  exact absurd (h [0, 1, 0, 1] ⟨1, 0, 51, 20⟩ h51) (by decide)

/-- C2: an authenticated user whose chat count for today is at least 50 gets
a 429 `QuotaExceeded` response with the quota message, and the turn has no
side effects beyond the read: no provider call is made (the outcome does not
consult the provider environment), the usage counter is unchanged, and no
session or messages are persisted (the database is returned untouched). -/
theorem apiChat_quota_exceeded_rejects (env : ProviderEnv) (f : StoreFaults)
    (db : DB) (uid date : Nat) (req : APIRequest) (r : UsageRow)
    (hrow : lookupUsage db uid date = some r)
    (hcount : dailyLimit ≤ r.chatCount) :
    apiChatHandler env f db uid date req none = (.quotaExceeded quotaMessage, db) ∧
    statusOf (.quotaExceeded quotaMessage) = 429 := by
  have hq : checkUsageLimit (queryChatCount db uid date none) = false := by
    simp [queryChatCount, hrow, checkUsageLimit]
    omega
  refine ⟨?_, rfl⟩
  simp [apiChatHandler, hq]

/-- Witness for C2 at a concrete user sitting exactly at the limit. -/
theorem apiChat_quota_exceeded_rejects_witness :
    apiChatHandler ⟨"key", fun _ => .error "net down"⟩ noFaults
        ⟨[⟨1, 0, 50, 900⟩], [], []⟩ 1 0 ⟨"hello", "gpt-4o"⟩ none
      = (.quotaExceeded quotaMessage, ⟨[⟨1, 0, 50, 900⟩], [], []⟩) :=
  (apiChat_quota_exceeded_rejects ⟨"key", fun _ => .error "net down"⟩ noFaults
    ⟨[⟨1, 0, 50, 900⟩], [], []⟩ 1 0 ⟨"hello", "gpt-4o"⟩ ⟨1, 0, 50, 900⟩
    rfl (by decide)).1

/-- C3: when the provider call fails the turn surfaces the error with
status 500, the usage counter is not incremented and nothing is persisted
(the database is returned untouched); moreover for the primary model each
of the failure causes — missing API key, network error, non-200 upstream
status, malformed response body, empty choices — makes `callOpenAI` fail. -/
theorem apiChat_provider_error_no_side_effects (env : ProviderEnv)
    (f : StoreFaults) (db : DB) (uid date : Nat) (msg modelName : String)
    (e : ProviderError)
    (hq : checkUsageLimit (queryChatCount db uid date none) = true)
    (he : callLLMAPI env msg modelName = .error e) :
    apiChatHandler env f db uid date ⟨msg, modelName⟩ none = (.providerError e, db) ∧
    statusOf (.providerError e) = 500 ∧
    (∀ env2 : ProviderEnv, env2.apiKey = "" →
      callOpenAI env2 msg = .error .missingKey) ∧
    (∀ env2 : ProviderEnv, ∀ ne : String, env2.apiKey ≠ "" →
      env2.http (openAIRequest msg) = .error ne →
      callOpenAI env2 msg = .error (.network ne)) ∧
    (∀ env2 : ProviderEnv, ∀ resp : HttpResp, env2.apiKey ≠ "" →
      env2.http (openAIRequest msg) = .ok resp → resp.status ≠ 200 →
      callOpenAI env2 msg = .error (.badStatus resp.status)) ∧
    (∀ env2 : ProviderEnv, env2.apiKey ≠ "" →
      env2.http (openAIRequest msg) = .ok ⟨200, .malformed⟩ →
      callOpenAI env2 msg = .error .malformedResponse) ∧
    (∀ env2 : ProviderEnv, ∀ tk : Nat, env2.apiKey ≠ "" →
      env2.http (openAIRequest msg) = .ok ⟨200, .wellFormed [] tk⟩ →
      callOpenAI env2 msg = .error .emptyChoices) := by
  refine ⟨?_, rfl, ?_, ?_, ?_, ?_, ?_⟩
  · simp [apiChatHandler, hq, he]
  · intro env2 hk
    simp [callOpenAI, hk]
  · intro env2 ne hk hh
    simp [callOpenAI, hk, hh]
  · intro env2 resp hk hh hs
    simp [callOpenAI, hk, hh, hs]
  · intro env2 hk hh
    simp [callOpenAI, hk, hh]
  · intro env2 tk hk hh
    simp [callOpenAI, hk, hh]

/-- Witness for C3: missing API key on the primary path, empty database. -/
theorem apiChat_provider_error_no_side_effects_witness :
    apiChatHandler ⟨"", fun _ => .error "net down"⟩ noFaults ⟨[], [], []⟩
        1 0 ⟨"hi", "gpt-4o"⟩ none
      = (.providerError .missingKey, ⟨[], [], []⟩) :=
  (apiChat_provider_error_no_side_effects ⟨"", fun _ => .error "net down"⟩
    noFaults ⟨[], [], []⟩ 1 0 "hi" "gpt-4o" .missingKey rfl rfl).1

/-- C4: once the provider call has succeeded, failures of the
usage-recording step and of any of the history-persistence inserts are
swallowed — for every fault configuration the turn still returns the
successful payload (response, model, tokens), never an error. -/
theorem apiChat_success_swallows_persistence_errors (env : ProviderEnv)
    (f : StoreFaults) (db : DB) (uid date : Nat)
    (msg modelName response : String) (tokens : Nat)
    (hq : checkUsageLimit (queryChatCount db uid date none) = true)
    (hp : callLLMAPI env msg modelName = .ok (response, tokens)) :
    (apiChatHandler env f db uid date ⟨msg, modelName⟩ none).1
      = .ok ⟨response, modelName, tokens⟩ := by
  simp [apiChatHandler, hq, hp]

/-- Witness for C4: every persistence statement failing, canned model. -/
theorem apiChat_success_swallows_persistence_errors_witness :
    (apiChatHandler ⟨"", fun _ => .error "net down"⟩ allFaults ⟨[], [], []⟩
        1 0 ⟨"hi", "claude-3"⟩ none).1
      = .ok ⟨claudeStubPre ++ "hi" ++ claudeStubPost, "claude-3", 100⟩ :=
  apiChat_success_swallows_persistence_errors ⟨"", fun _ => .error "net down"⟩
    allFaults ⟨[], [], []⟩ 1 0 "hi" "claude-3"
    (claudeStubPre ++ "hi" ++ claudeStubPost) 100 rfl rfl

/-- C7: a successful, fault-free turn persists exactly one new session and
exactly two messages belonging to it — the user message first and then the
assistant reply — with the token count recorded on the assistant message
only (NULL on the user message), while returning the success payload. -/
theorem apiChat_success_persists_history (env : ProviderEnv) (db : DB)
    (uid date : Nat) (msg modelName response : String) (tokens : Nat)
    (hq : checkUsageLimit (queryChatCount db uid date none) = true)
    (hp : callLLMAPI env msg modelName = .ok (response, tokens)) :
    (apiChatHandler env noFaults db uid date ⟨msg, modelName⟩ none).1
      = .ok ⟨response, modelName, tokens⟩ ∧
    (apiChatHandler env noFaults db uid date ⟨msg, modelName⟩ none).2.sessions
      = db.sessions ++ [⟨db.sessions.length + 1, uid, titleOf msg, modelName⟩] ∧
    (apiChatHandler env noFaults db uid date ⟨msg, modelName⟩ none).2.messages
      = db.messages ++
        [⟨db.sessions.length + 1, "user", msg, modelName, none⟩,
         ⟨db.sessions.length + 1, "assistant", response, modelName, some tokens⟩] := by
  refine ⟨?_, ?_, ?_⟩ <;>
    simp [apiChatHandler, hq, hp, noFaults, saveChatHistory,
      recordUsage_sessions, recordUsage_messages]

/-- Witness for C7: a canned-model turn against the empty database. -/
theorem apiChat_success_persists_history_witness :
    (apiChatHandler ⟨"", fun _ => .error "net down"⟩ noFaults ⟨[], [], []⟩
        1 0 ⟨"hi", "claude-3"⟩ none).2.sessions
      = [⟨1, 1, titleOf "hi", "claude-3"⟩] ∧
    (apiChatHandler ⟨"", fun _ => .error "net down"⟩ noFaults ⟨[], [], []⟩
        1 0 ⟨"hi", "claude-3"⟩ none).2.messages
      = [⟨1, "user", "hi", "claude-3", none⟩,
         ⟨1, "assistant", claudeStubPre ++ "hi" ++ claudeStubPost, "claude-3",
          some 100⟩] :=
  ⟨(apiChat_success_persists_history ⟨"", fun _ => .error "net down"⟩
      ⟨[], [], []⟩ 1 0 "hi" "claude-3"
      (claudeStubPre ++ "hi" ++ claudeStubPost) 100 rfl rfl).2.1,
   (apiChat_success_persists_history ⟨"", fun _ => .error "net down"⟩
      ⟨[], [], []⟩ 1 0 "hi" "claude-3"
      (claudeStubPre ++ "hi" ++ claudeStubPost) 100 rfl rfl).2.2⟩

/-- C6 (counterexample): the truncation threshold is measured in bytes,
not characters — a 17-character Japanese message (51 UTF-8 bytes) is at
most 50 characters long yet its stored title is not the full message;
also the concrete English example message has 52 characters, not 54. -/
theorem title_truncation_characters_counterexample :
    ("あああああああああああああああああ" : String).length ≤ 50 ∧
    titleOf "あああああああああああああああああ"
      ≠ utf8Encode "あああああああああああああああああ" ∧
    ("Draft a product announcement email for our Q3 launch" : String).length
      = 52 := by
  decide

/-- C6 (amended): the stored session title equals the user message when the
message's UTF-8 byte length is at most 50, and equals the first 47 bytes
followed by the 3-byte marker "..." when the byte length exceeds 50; for
ASCII messages bytes coincide with characters, so the 52-character message
of the concrete scenario yields its first 47 characters plus "...". -/
theorem title_truncation_by_bytes (msg : List Nat) :
    (msg.length ≤ 50 → truncateTitle msg = msg) ∧
    (50 < msg.length → truncateTitle msg = msg.take 47 ++ [46, 46, 46]) ∧
    (∀ db : DB, ∀ uid tokens : Nat, ∀ s resp modelName : String,
      ((saveChatHistory noFaults db uid s resp modelName tokens).2).sessions
        = db.sessions ++ [⟨db.sessions.length + 1, uid, titleOf s, modelName⟩]) ∧
    titleOf "Draft a product announcement email for our Q3 launch"
      = utf8Encode "Draft a product announcement email for our Q3 l..." := by
  refine ⟨fun h => ?_, fun h => ?_,
    fun db uid tokens s resp modelName => ?_, by decide⟩
  · unfold truncateTitle
    rw [if_neg (by omega)]
  · unfold truncateTitle
    rw [if_pos h]
  · simp [saveChatHistory, noFaults]

/-- Witness for C6 at a short and at a long byte string. -/
theorem title_truncation_by_bytes_witness :
    truncateTitle (utf8Encode "hi") = utf8Encode "hi" ∧
    truncateTitle (List.replicate 60 97)
      = (List.replicate 60 97).take 47 ++ [46, 46, 46] :=
  ⟨(title_truncation_by_bytes (utf8Encode "hi")).1 (by decide),
   (title_truncation_by_bytes (List.replicate 60 97)).2.1 (by decide)⟩

/-- C8: a model name outside the enumerated set dispatches along the
primary model's call path — identical to the `gpt-4o` dispatch, namely
`callOpenAI` on the message — rather than returning an error. -/
theorem callLLMAPI_unknown_model_falls_back (env : ProviderEnv)
    (msg modelName : String) (h1 : modelName ≠ "gpt-4o")
    (h2 : modelName ≠ "claude-3") (h3 : modelName ≠ "gemini") :
    callLLMAPI env msg modelName = callLLMAPI env msg "gpt-4o" ∧
    callLLMAPI env msg modelName = callOpenAI env msg := by
  constructor <;> simp [callLLMAPI, h1, h2, h3]

/-- Witness for C8 at an unrecognized model name. -/
theorem callLLMAPI_unknown_model_falls_back_witness :
    callLLMAPI ⟨"", fun _ => .error "net down"⟩ "hi" "llama-7b"
      = callLLMAPI ⟨"", fun _ => .error "net down"⟩ "hi" "gpt-4o" :=
  (callLLMAPI_unknown_model_falls_back ⟨"", fun _ => .error "net down"⟩
    "hi" "llama-7b" (by decide) (by decide) (by decide)).1

/-- C9: dispatch to `claude-3` or `gemini` returns, without error and
without consulting the provider environment (no upstream call), a canned
placeholder embedding the input message verbatim between fixed prefix and
suffix, with a token cost of exactly 100. -/
theorem callLLMAPI_stub_models_canned (env env2 : ProviderEnv) (msg : String) :
    callLLMAPI env msg "claude-3"
      = .ok (claudeStubPre ++ msg ++ claudeStubPost, 100) ∧
    callLLMAPI env msg "gemini"
      = .ok (geminiStubPre ++ msg ++ geminiStubPost, 100) ∧
    callLLMAPI env msg "claude-3" = callLLMAPI env2 msg "claude-3" ∧
    callLLMAPI env msg "gemini" = callLLMAPI env2 msg "gemini" := by
  refine ⟨?_, ?_, ?_, ?_⟩ <;> simp [callLLMAPI]

end Theorems

end BusinessGPT
